import Mathlib

/-!
Verification of the Jimaku subtitle provider
(`custom_libs/subliminal_patch/providers/jimaku.py`).

The Python source is shallowly embedded below: pure computations become Lean
functions, the HTTP layer is modelled by explicit response scripts and oracle
functions, Python `None`/absence becomes `Option`, and raised exceptions
become explicit outcome constructors.  External libraries (`rarfile`,
`zipfile`, `guessit`, `get_subtitle_from_archive`) enter only as abstract
function parameters, since the code under verification merely dispatches on
their results.
-/

namespace Jimaku

/-! ## Python-style string helpers -/

/-- Check whether the first list is a prefix of the second (by `==` on
characters).  Used to build Python's `str.endswith` and substring tests. -/
def listStartsWith : List Char → List Char → Bool
  | [], _ => true
  | _ :: _, [] => false
  | p :: ps, c :: cs => p == c && listStartsWith ps cs

/-- Check whether the first list occurs as a contiguous segment of the
second; mirror of Python's `needle in haystack` on strings. -/
def listContainsSeg : List Char → List Char → Bool
  | pat, [] => pat.isEmpty
  | pat, c :: cs => listStartsWith pat (c :: cs) || listContainsSeg pat cs

/-- Python `pat in s` (substring containment). -/
def strContains (s pat : String) : Bool :=
  listContainsSeg pat.data s.data

/-- Python `s.endswith(suf)`: the reversed candidate starts with the
reversed ending. -/
def strEndsWith (s suf : String) : Bool :=
  listStartsWith suf.data.reverse s.data.reverse

/-- Python `s.endswith(tuple_of_endings)`. -/
def endsWithAny (name : String) (exts : List String) : Bool :=
  exts.any (fun e => strEndsWith name e)

/-- Python `s[i]` as a one-character string (empty when out of range,
where Python would raise `IndexError`; the claims only use in-range and
non-singleton keys). -/
def charAtStr (s : String) (i : Nat) : String :=
  ((s.data.drop i).take 1).asString

/-- Python truthiness of a string: non-empty. -/
def pyStrTruthy (s : String) : Bool :=
  !s.data.isEmpty

/-- Python `s.lower()`, character-wise (the marker tokens and names the
claims exercise are ASCII, where this agrees with Python). -/
def strToLower (s : String) : String :=
  String.mk (s.data.map Char.toLower)

/-- Python `str(x)` for an optional integer: `str(None) = "None"`. -/
def pyStrOptNat : Option Nat → String
  | some n => toString n
  | none => "None"

/-- Python truthiness of an optional integer (`None` and `0` are falsy). -/
def pyTruthyOptNat : Option Nat → Bool
  | none => false
  | some n => n != 0

/-- Python `not data` for a value that is either `None` or a list. -/
def pyNotData {β : Type} : Option (List β) → Bool
  | none => true
  | some l => l.isEmpty

/-! ## UTF-8 / URL encoding (model of `urllib.parse.quote_plus`) -/

/-- Uppercase hexadecimal digit, as used by percent-encoding. -/
def hexDigitUpper (n : Nat) : Char :=
  if n = 0 then '0' else if n = 1 then '1' else if n = 2 then '2' else
  if n = 3 then '3' else if n = 4 then '4' else if n = 5 then '5' else
  if n = 6 then '6' else if n = 7 then '7' else if n = 8 then '8' else
  if n = 9 then '9' else if n = 10 then 'A' else if n = 11 then 'B' else
  if n = 12 then 'C' else if n = 13 then 'D' else if n = 14 then 'E' else 'F'

/-- UTF-8 bytes of a Unicode code point, as natural numbers. -/
def utf8Bytes (n : Nat) : List Nat :=
  if n < 0x80 then [n]
  else if n < 0x800 then [0xC0 + n / 64, 0x80 + n % 64]
  else if n < 0x10000 then
    [0xE0 + n / 4096, 0x80 + (n / 64) % 64, 0x80 + n % 64]
  else
    [0xF0 + n / 262144, 0x80 + (n / 4096) % 64, 0x80 + (n / 64) % 64,
     0x80 + n % 64]

/-- Percent-encode one byte: `%XX` with uppercase hex. -/
def percentByte (b : Nat) : String :=
  String.mk ['%', hexDigitUpper (b / 16), hexDigitUpper (b % 16)]

/-- Model of `urllib.parse.quote_plus` applied to one character: spaces
become `+`, unreserved characters are kept, anything else is
percent-encoded byte-wise. -/
def quotePlusChar (c : Char) : String :=
  if c = ' ' then "+"
  else if c.isAlphanum || c = '-' || c = '_' || c = '.' || c = '~' then
    String.mk [c]
  else
    String.join ((utf8Bytes c.toNat).map percentByte)

/-- Model of `urllib.parse.quote_plus` on a whole string. -/
def quotePlus (s : String) : String :=
  String.join (s.data.map quotePlusChar)

/-! ## Data model -/

/-- Attributes of a `subliminal` `Movie` object that the provider reads. -/
structure MovieV where
  title : String
  releaseGroup : String
  anilistId : Option Nat
deriving DecidableEq

/-- Attributes of a `subliminal` `Episode` object that the provider reads
(`series`, `season`, `episode`, `series_anidb_episode_no`,
`release_group`, `anilist_id`). -/
structure EpisodeV where
  series : String
  season : Nat
  episode : Nat
  seriesAnidbEpisodeNo : Nat
  releaseGroup : String
  anilistId : Option Nat
deriving DecidableEq

/-- The video identity: a closed Movie/Episode tagged union. -/
inductive Video
  | movie (m : MovieV)
  | episode (e : EpisodeV)
deriving DecidableEq

/-- Python `isinstance(video, Episode)`. -/
def isEpisodeVideo : Video → Bool
  | .movie _ => false
  | .episode _ => true

/-- The video's `release_group` attribute. -/
def videoReleaseGroup : Video → String
  | .movie m => m.releaseGroup
  | .episode e => e.releaseGroup

/-- The video's `anilist_id` attribute. -/
def videoAnilistId : Video → Option Nat
  | .movie m => m.anilistId
  | .episode e => e.anilistId

/-- A catalog entry object from a `entries/search` JSON response: fields
`id`, `anilist_id` (optional), `name`, `english_name`, `flags.unverified`. -/
structure Entry where
  id : Nat
  anilistId : Option Nat
  name : String
  englishName : String
  flagsUnverified : Bool
deriving DecidableEq

/-- A file record from an `entries/{id}/files` JSON response: fields
`name`, `url`, `size` (optional). -/
structure Item where
  name : String
  url : String
  size : Option Nat
deriving DecidableEq

/-- The JimakuSubtitle result object: the fields its constructor stores
(`release_info` duplicates `subtitle_filename` and the language is pinned
to Japanese, so neither is repeated here). -/
structure JimakuSubtitle where
  video : Video
  subtitleId : String
  subtitleUrl : String
  subtitleFilename : String
deriving DecidableEq

/-- Provider configuration: the constructor arguments `enable_archives`
and `enable_ai_subs`, plus the class attribute `episode_number_override`
(which the source fixes to `False`). -/
structure ProviderCfg where
  enableArchives : Bool
  enableAiSubs : Bool
  episodeNumberOverride : Bool
deriving DecidableEq

/-- Class attribute `episode_number_override = False`. -/
def episodeNumberOverrideDefault : Bool := false

/-- Class attribute `corrupted_file_size_threshold = 500`. -/
def corruptedFileSizeThreshold : Nat := 500

/-- Class attribute `api_ratelimit_max_delay_seconds = 5` (delays are
rational numbers, standing in for Python floats at the exact values the
code compares). -/
def apiRatelimitMaxDelaySeconds : ℚ := 5

/-- Class attribute `api_ratelimit_backoff_limit = 3`. -/
def apiRatelimitBackoffLimit : Nat := 3

/-! ## Filtering pipeline (`_query`, lines 165-200) -/

/-- AI-origin exclusion: `if not self.enable_ai_subs: if "whisperai" in
subtitle_filename.lower(): continue`. -/
def aiExcluded (enableAiSubs : Bool) (name : String) : Bool :=
  !enableAiSubs && strContains (strToLower name) "whisperai"

/-- Corrupt-size exclusion: `item.get('size', threshold) < threshold`. -/
def sizeExcluded (item : Item) : Bool :=
  item.size.getD corruptedFileSizeThreshold < corruptedFileSizeThreshold

/-- Extension exclusion: `subtitle_filename.endswith(archive_formats_blacklist)`. -/
def extExcluded (blacklist : List String) (name : String) : Bool :=
  endsWithAny name blacklist

/-- The archive-format blacklist assembly together with the relaxation
warning: starts from `(".7z",)`; when archives are disabled, `.zip`/`.rar`
are appended unless no item would survive them, in which case the blacklist
stays `(".7z",)` and a warning is logged (second component `true`). -/
def extensionBlacklistWarn (enableArchives : Bool) (data : List Item) :
    List String × Bool :=
  let base := [".7z"]
  if !enableArchives then
    let disabledArchives := [".zip", ".rar"]
    let filtered := data.filter (fun item => !endsWithAny item.name disabledArchives)
    if filtered.length == 0 then (base, true)
    else (base ++ disabledArchives, false)
  else (base, false)

/-- Synthesized candidate id:
`f"{str(anilist_id)}_{number}_{video.release_group}"`. -/
def jimakuSubtitleId (anilistId : Option Nat) (number : Nat)
    (releaseGroup : String) : String :=
  pyStrOptNat anilistId ++ "_" ++ toString number ++ "_" ++ releaseGroup

/-- Construction of one JimakuSubtitle from a surviving item. -/
def mkJimakuSubtitle (video : Video) (anilistId : Option Nat) (number : Nat)
    (item : Item) : JimakuSubtitle :=
  { video := video
    subtitleId := jimakuSubtitleId anilistId number (videoReleaseGroup video)
    subtitleUrl := item.url
    subtitleFilename := item.name }

/-- Body of the `for item in data` filtering loop: `continue` on the AI
check, `continue` on the size check, append when the name does not end in a
blacklisted extension, else skip. -/
def filterDecision (cfg : ProviderCfg) (video : Video) (anilistId : Option Nat)
    (episodeNumber : Nat) (blacklist : List String) (item : Item) :
    Option JimakuSubtitle :=
  if aiExcluded cfg.enableAiSubs item.name then none
  else if sizeExcluded item then none
  else if !extExcluded blacklist item.name then
    let number := if isEpisodeVideo video then episodeNumber else 0
    some (mkJimakuSubtitle video anilistId number item)
  else none

/-- The whole filtering stage of `_query`: blacklist assembly followed by
the per-item loop, in listing order. -/
def filterSubtitles (cfg : ProviderCfg) (video : Video) (anilistId : Option Nat)
    (episodeNumber : Nat) (data : List Item) : List JimakuSubtitle :=
  let blacklist := (extensionBlacklistWarn cfg.enableArchives data).fst
  data.filterMap (filterDecision cfg video anilistId episodeNumber blacklist)

/-! ## Entry resolution and the file-listing loop (`_query`, lines 117-163) -/

/-- Oracle for the non-exceptional outcomes of `_get_jimaku_response` as
seen by `_query`: parsed data, or `None` for empty/error payloads.  (An
exception in the fetcher would propagate out of `_query` unchanged, so it
is outside this function's own control flow.) -/
structure Remote where
  search : String → Option (List Entry)
  files : String → Option (List Item)

/-- Derivation of `media_name` (lower-cased title/series; for episodes with
season greater than 1 the season number is appended). -/
def mediaNameOf : Video → String
  | .movie m => strToLower m.title
  | .episode e =>
      let base := strToLower e.series
      if e.season > 1 then base ++ " " ++ toString e.season else base

/-- Model of `_assemble_jimaku_search_url`: search by `anilist_id` when it
is truthy, else by the URL-quoted media name. -/
def assembleJimakuSearchUrl (video : Video) (mediaName : String) : String :=
  let url := "entries/search"
  let anilistId := videoAnilistId video
  if pyTruthyOptNat anilistId then
    url ++ "?anilist_id=" ++ pyStrOptNat anilistId
  else
    url ++ "?query=" ++ quotePlus mediaName

/-- The `while retry_count <= 1` file-listing loop of `_query`.  The first
argument is structural fuel equal to the number of loop iterations still
permitted by the guard (`2 - retry_count`); `retryCount` itself is kept as
data so that the source's dead guard `retry_count < 1` appears verbatim.
Returns `none` for the loop's `return None`, else the final `data` and the
final `episode_number`. -/
def filesLoopGo (remote : Remote) (isEp : Bool) (override : Bool)
    (entryId : Nat) (anidbNo : Nat) :
    Nat → Nat → Nat → List Item → Option (List Item × Nat)
  | 0, _retryCount, episodeNumber, lastData => some (lastData, episodeNumber)
  | fuel + 1, retryCount, episodeNumber, lastData =>
      let rc := retryCount + 1
      let url :=
        if isEp then
          "entries/" ++ toString entryId ++ "/files?episode=" ++
            toString episodeNumber
        else "entries/" ++ toString entryId ++ "/files"
      let data := remote.files url
      if pyNotData data && isEp && override && decide (rc < 1) then
        -- episode_number = video.series_anidb_episode_no
        filesLoopGo remote isEp override entryId anidbNo fuel rc anidbNo lastData
      else if pyNotData data then none
      else
        filesLoopGo remote isEp override entryId anidbNo fuel rc episodeNumber
          (data.getD lastData)

/-- The file-listing loop started as in `_query`: `retry_count = 0`, so the
guard permits two iterations. -/
def filesLoop (remote : Remote) (isEp : Bool) (override : Bool)
    (entryId : Nat) (anidbNo : Nat) (episodeNumber : Nat) :
    Option (List Item × Nat) :=
  filesLoopGo remote isEp override entryId anidbNo 2 0 episodeNumber []

/-- Model of `_query`: resolve the entry (first element of the search
response), run the file-listing loop, then filter.  `none` is `_query`'s
`return None`. -/
def query (cfg : ProviderCfg) (remote : Remote) (video : Video) :
    Option (List JimakuSubtitle) :=
  let mediaName := mediaNameOf video
  let url := assembleJimakuSearchUrl video mediaName
  let data := remote.search url
  match data with
  | none => none
  | some [] => none
  | some (entry :: _) =>
      let entryId := entry.id
      let anilistId := entry.anilistId
      let epInit := match video with
        | .episode e => e.episode
        | .movie _ => 0
      match filesLoop remote (isEpisodeVideo video) cfg.episodeNumberOverride
          entryId (match video with
            | .episode e => e.seriesAnidbEpisodeNo
            | .movie _ => 0) epInit with
      | none => none
      | some (dataFiles, episodeNumber) =>
          some (filterSubtitles cfg video anilistId episodeNumber dataFiles)

/-- Model of `list_subtitles`: `if not subtitles: return []` then a list
comprehension over the result. -/
def listSubtitles (cfg : ProviderCfg) (remote : Remote) (video : Video) :
    List JimakuSubtitle :=
  let subtitles := query cfg remote video
  if pyNotData subtitles then [] else subtitles.getD []

/-! ## Rate-limited fetcher (`_get_jimaku_response`, lines 240-272) -/

/-- An HTTP response as the fetcher observes it: status code, optional
`x-ratelimit-reset-after` header, and parsed JSON body. -/
structure HttpResponse (α : Type) where
  status : Nat
  ratelimitResetAfter : Option ℚ
  body : α
deriving DecidableEq

/-- Outcome of one `_get_jimaku_response` call.  `ok`/`noResult` are the
return values (data / `None`); the remaining constructors are the raised
exceptions (`AuthenticationError`, `requests.HTTPError` from
`raise_for_status`, `APIThrottled`), plus a model artifact for an
exhausted response script. -/
inductive FetchResult (α : Type)
  | ok : α → FetchResult α
  | noResult : FetchResult α
  | authError : FetchResult α
  | httpError : Nat → FetchResult α
  | throttled : FetchResult α
  | noResponse : FetchResult α
deriving DecidableEq

/-- A fetch outcome together with the sleeps performed and the number of
GET requests issued. -/
structure FetchTrace (α : Type) where
  result : FetchResult α
  sleeps : List ℚ
  requests : Nat
deriving DecidableEq

/-- The `while retry_count < self.api_ratelimit_backoff_limit` loop of
`_get_jimaku_response`, translated branch by branch.  The session is a
script of responses, consumed one per GET.  Note that every branch of the
loop body terminates the call — in particular, on a 429 the code sleeps
and then the unconditional `response.raise_for_status()` raises
`requests.HTTPError`, so the loop never reaches a second iteration and the
closing `raise APIThrottled` is reachable only with a zero backoff limit. -/
def getJimakuResponseLoop {α : Type} (pyLen : α → Nat) (pyHasError : α → Bool) :
    Nat → List (HttpResponse α) → FetchTrace α
  | 0, _ => ⟨.throttled, [], 0⟩
  | _fuel + 1, [] => ⟨.noResponse, [], 0⟩
  | _fuel + 1, r :: _rest =>
      if r.status == 429 then
        let apiResetTime := r.ratelimitResetAfter.getD 5
        let resetTime :=
          if apiResetTime > apiRatelimitMaxDelaySeconds then
            apiRatelimitMaxDelaySeconds
          else apiResetTime
        -- time.sleep(reset_time), then response.raise_for_status() raises
        ⟨.httpError 429, [resetTime], 1⟩
      else if r.status == 401 then ⟨.authError, [], 1⟩
      else if 400 ≤ r.status then ⟨.httpError r.status, [], 1⟩
      else if pyLen r.body == 0 then ⟨.noResult, [], 1⟩
      else if pyHasError r.body then ⟨.noResult, [], 1⟩
      else ⟨.ok r.body, [], 1⟩

/-- One un-memoized `_get_jimaku_response` call with the configured
backoff limit. -/
def getJimakuResponse {α : Type} (pyLen : α → Nat) (pyHasError : α → Bool)
    (script : List (HttpResponse α)) : FetchTrace α :=
  getJimakuResponseLoop pyLen pyHasError apiRatelimitBackoffLimit script

/-- Association-list lookup for the memoization cache keyed by the request
path. -/
def lookupCache {α : Type} : List (String × Option α) → String → Option (Option α)
  | [], _ => none
  | (k, v) :: rest, path => if k == path then some v else lookupCache rest path

/-- The `@cache`-decorated `_get_jimaku_response`: on a hit the stored
return value (data or `None`) is produced with no GET issued; on a miss the
fetch runs and its return value — but not a raised exception, which
`functools.cache` does not store — is memoized. -/
def cachedGetJimakuResponse {α : Type} (pyLen : α → Nat) (pyHasError : α → Bool)
    (cache : List (String × Option α)) (path : String)
    (script : List (HttpResponse α)) :
    FetchTrace α × List (String × Option α) :=
  match lookupCache cache path with
  | some (some d) => (⟨.ok d, [], 0⟩, cache)
  | some none => (⟨.noResult, [], 0⟩, cache)
  | none =>
      let t := getJimakuResponse pyLen pyHasError script
      match t.result with
      | .ok d => (t, (path, some d) :: cache)
      | .noResult => (t, (path, none) :: cache)
      | _ => (t, cache)

/-! ## Download and archive sniffing (`download_subtitle`, `_is_archive`) -/

/-- The handle `_is_archive` returns: a `rarfile.RarFile` or
`zipfile.ZipFile` over the byte buffer. -/
inductive ArchiveHandle
  | rarFile (bytes : List Nat)
  | zipFile (bytes : List Nat)
deriving DecidableEq

/-- Model of `_is_archive`: `rarfile.is_rarfile` is consulted first, then
`zipfile.is_zipfile`; both signature tests are abstract parameters (they
are external libraries inspecting the byte structure). -/
def isArchive (isRarfile isZipfile : List Nat → Bool) (archive : List Nat) :
    Option ArchiveHandle :=
  if isRarfile archive then some (.rarFile archive)
  else if isZipfile archive then some (.zipFile archive)
  else none

/-- Outcome of `download_subtitle`: a raised `requests.HTTPError`, an
assignment to `subtitle.content` (whose value is whatever the external
`get_subtitle_from_archive` helper returned, or the raw body), or the soft
corruption path in which `content` is never assigned. -/
inductive DownloadOutcome
  | httpError (code : Nat)
  | contentSet (content : Option (List Nat))
  | contentUnset
deriving DecidableEq

/-- Model of `download_subtitle`: `raise_for_status`, archive sniffing,
then the three-way dispatch.  `getSubtitleFromArchive` abstracts the
external archive-member-selection helper. -/
def downloadSubtitle (isRarfile isZipfile : List Nat → Bool)
    (getSubtitleFromArchive : ArchiveHandle → Nat → Option (List Nat))
    (videoEpisode : Nat) (subtitleUrl : String)
    (response : HttpResponse (List Nat)) : DownloadOutcome :=
  if 400 ≤ response.status then .httpError response.status
  else
    match isArchive isRarfile isZipfile response.body with
    | some archive => .contentSet (getSubtitleFromArchive archive videoEpisode)
    | none =>
        if strEndsWith subtitleUrl ".zip" || strEndsWith subtitleUrl ".rar" then
          -- logged as possible corruption; `return None` without assignment
          .contentUnset
        else .contentSet (some response.body)

/-! ## Match scoring (`JimakuSubtitle.get_matches`, guess loop, lines 73-79) -/

/-- The guard `g[0] == "release_group" or "source"`, with Python `or`
semantics: the truthiness of the left boolean, or else the truthiness of
the non-empty string literal `"source"`. -/
def guessitGuard (g : String) : Bool :=
  (charAtStr g 0 == "release_group") || pyStrTruthy "source"

/-- The `for g in guess` loop of `get_matches`: iterating a guessit result
dict yields its KEYS, so `g` is a key string and `g[1]` its second
character; `release_group` is added (and the loop broken) at the first key
passing the guard whose second character equals `video.release_group`. -/
def releaseGroupMatched (guessKeys : List String)
    (videoReleaseGroup : String) : Bool :=
  guessKeys.any (fun g => guessitGuard g && (videoReleaseGroup == charAtStr g 1))

/-! ## Helper lemmas about the filtering stage -/

lemma filterDecision_eq_some_iff (cfg : ProviderCfg) (video : Video)
    (anilistId : Option Nat) (episodeNumber : Nat) (blacklist : List String)
    (item : Item) (s : JimakuSubtitle) :
    filterDecision cfg video anilistId episodeNumber blacklist item = some s ↔
      aiExcluded cfg.enableAiSubs item.name = false ∧
      sizeExcluded item = false ∧
      extExcluded blacklist item.name = false ∧
      s = mkJimakuSubtitle video anilistId
        (if isEpisodeVideo video then episodeNumber else 0) item := by
  unfold filterDecision
  cases hai : aiExcluded cfg.enableAiSubs item.name <;>
    cases hsz : sizeExcluded item <;>
      cases hex : extExcluded blacklist item.name <;>
        (simp; try exact eq_comm)

lemma mem_filterSubtitles (cfg : ProviderCfg) (video : Video)
    (anilistId : Option Nat) (episodeNumber : Nat) (data : List Item)
    (s : JimakuSubtitle) :
    s ∈ filterSubtitles cfg video anilistId episodeNumber data ↔
      ∃ item, item ∈ data ∧
        aiExcluded cfg.enableAiSubs item.name = false ∧
        sizeExcluded item = false ∧
        extExcluded (extensionBlacklistWarn cfg.enableArchives data).fst
          item.name = false ∧
        s = mkJimakuSubtitle video anilistId
          (if isEpisodeVideo video then episodeNumber else 0) item := by
  unfold filterSubtitles
  simp only [List.mem_filterMap, filterDecision_eq_some_iff]

lemma strEndsWith_head (s suf : String) (c : Char) (cs : List Char)
    (hsuf : suf.data.reverse = c :: cs) (h : strEndsWith s suf = true) :
    ∃ ds, s.data.reverse = c :: ds := by
  unfold strEndsWith at h
  rw [hsuf] at h
  cases hs : s.data.reverse with
  | nil => rw [hs] at h; simp [listStartsWith] at h
  | cons d ds =>
      rw [hs] at h
      simp only [listStartsWith, Bool.and_eq_true, beq_iff_eq] at h
      exact ⟨ds, by rw [h.1]⟩

lemma not_endsWith_of_head_ne (s suf : String) (c : Char) (cs ds : List Char)
    (hsuf : suf.data.reverse = c :: cs) (hs : s.data.reverse = ds)
    (hd : ds.head? ≠ some c) : strEndsWith s suf = false := by
  unfold strEndsWith
  rw [hsuf, hs]
  cases ds with
  | nil => rfl
  | cons d ds =>
      simp only [List.head?] at hd
      simp only [listStartsWith, Bool.and_eq_false_iff]
      left
      simp only [beq_eq_false_iff_ne, ne_eq]
      intro hc
      exact hd (by rw [hc])

lemma not_ends_7z_of_zip_rar (name : String)
    (h : endsWithAny name [".zip", ".rar"] = true) :
    strEndsWith name ".7z" = false := by
  have hz : (".7z" : String).data.reverse = 'z' :: ['7', '.'] := rfl
  simp only [endsWithAny, List.any_cons, List.any_nil, Bool.or_false,
    Bool.or_eq_true] at h
  rcases h with h | h
  · obtain ⟨ds, hds⟩ := strEndsWith_head name ".zip" 'p' ['i', 'z', '.'] rfl h
    exact not_endsWith_of_head_ne name ".7z" 'z' ['7', '.'] _ hz hds
      (fun hcon => absurd (Option.some.inj hcon) (by decide))
  · obtain ⟨ds, hds⟩ := strEndsWith_head name ".rar" 'r' ['a', 'r', '.'] rfl h
    exact not_endsWith_of_head_ne name ".7z" 'z' ['7', '.'] _ hz hds
      (fun hcon => absurd (Option.some.inj hcon) (by decide))

lemma extensionBlacklistWarn_cases (data : List Item) :
    (if (data.filter
          (fun item => !endsWithAny item.name [".zip", ".rar"])).length = 0 then
      extensionBlacklistWarn false data = ([".7z"], true)
    else extensionBlacklistWarn false data = ([".7z", ".zip", ".rar"], false)) := by
  unfold extensionBlacklistWarn
  split <;> rename_i h <;> simp_all

/-! ## Claim C4: archive-format exclusion and its relaxation -/

/-- Claim C4: with archive handling disabled, `.7z` files are always
excluded; `.zip`/`.rar` files are excluded unless excluding them would
leave zero candidates, in which case the extension filter passes the full
list and the warning flag of the blacklist-assembly step is raised
instead. -/
theorem claim_C4_archive_exclusion (cfg : ProviderCfg) (video : Video)
    (anilistId : Option Nat) (episodeNumber : Nat) (data : List Item)
    (harch : cfg.enableArchives = false) :
    (∀ s, s ∈ filterSubtitles cfg video anilistId episodeNumber data →
      strEndsWith s.subtitleFilename ".7z" = false) ∧
    ((data.filter (fun it => !endsWithAny it.name [".zip", ".rar"])).length ≠ 0 →
      ∀ s, s ∈ filterSubtitles cfg video anilistId episodeNumber data →
        endsWithAny s.subtitleFilename [".zip", ".rar"] = false) ∧
    ((data.filter (fun it => !endsWithAny it.name [".zip", ".rar"])).length = 0 →
      extensionBlacklistWarn cfg.enableArchives data = ([".7z"], true) ∧
      ∀ it, it ∈ data →
        extExcluded (extensionBlacklistWarn cfg.enableArchives data).fst
          it.name = false) := by
  have hbl := extensionBlacklistWarn_cases data
  refine ⟨?_, ?_, ?_⟩
  · intro s hs
    rw [mem_filterSubtitles] at hs
    obtain ⟨item, _, _, _, hex, hmk⟩ := hs
    have hname : s.subtitleFilename = item.name := by
      rw [hmk]; rfl
    rw [hname]
    by_cases hlen :
        (data.filter (fun it => !endsWithAny it.name [".zip", ".rar"])).length = 0
    · rw [if_pos hlen] at hbl
      rw [harch, hbl] at hex
      simpa [extExcluded, endsWithAny] using hex
    · rw [if_neg hlen] at hbl
      rw [harch, hbl] at hex
      simp only [extExcluded, endsWithAny, List.any_cons, List.any_nil,
        Bool.or_false, Bool.or_eq_false_iff] at hex
      exact hex.1
  · intro hlen s hs
    rw [mem_filterSubtitles] at hs
    obtain ⟨item, _, _, _, hex, hmk⟩ := hs
    have hname : s.subtitleFilename = item.name := by
      rw [hmk]; rfl
    rw [hname]
    rw [if_neg hlen] at hbl
    rw [harch, hbl] at hex
    simp only [extExcluded, endsWithAny, List.any_cons, List.any_nil,
      Bool.or_false, Bool.or_eq_false_iff] at hex
    simp [endsWithAny, hex.2.1, hex.2.2]
  · intro hlen
    rw [if_pos hlen] at hbl
    rw [harch, hbl]
    refine ⟨rfl, ?_⟩
    intro it hit
    have hall : ∀ x ∈ data, ¬(!endsWithAny x.name [".zip", ".rar"]) = true := by
      rw [← List.filter_eq_nil_iff]
      exact List.length_eq_zero.mp hlen
    have hzr : endsWithAny it.name [".zip", ".rar"] = true := by
      have := hall it hit
      simpa using this
    simp [extExcluded, endsWithAny, not_ends_7z_of_zip_rar it.name hzr]

/-- Fixture for the C4 witness: every listed file is a `.zip`. -/
def c4cfg : ProviderCfg := ⟨false, true, false⟩

/-- Fixture for the C4 witness: an all-archive file list. -/
def c4data : List Item := [⟨"a.zip", "http://x/a.zip", none⟩]

/-- Witness for claim C4: on a list where every file ends in `.zip` with
archives disabled, the blacklist stays `.7z`-only with the warning raised. -/
theorem claim_C4_archive_exclusion_witness :
    extensionBlacklistWarn c4cfg.enableArchives c4data = ([".7z"], true) :=
  ((claim_C4_archive_exclusion c4cfg (.movie ⟨"m", "g", none⟩) none 0 c4data
    rfl).2.2 (by decide)).1

/-! ## Claim C5: corrupt-size filter -/

/-- Claim C5: the corrupt-size filter discards a file exactly when its
reported size is strictly below the 500-byte threshold; 499 is excluded,
500 is kept, and a missing size field passes.  Any candidate produced by
the filter stage comes from an item that passed this check. -/
theorem claim_C5_size_filter :
    (∀ it : Item, sizeExcluded it = true ↔
      ∃ n, it.size = some n ∧ n < corruptedFileSizeThreshold) ∧
    sizeExcluded ⟨"a.srt", "u", some 499⟩ = true ∧
    sizeExcluded ⟨"a.srt", "u", some 500⟩ = false ∧
    sizeExcluded ⟨"a.srt", "u", none⟩ = false ∧
    (∀ cfg video anilistId episodeNumber data s,
      s ∈ filterSubtitles cfg video anilistId episodeNumber data →
      ∃ it, it ∈ data ∧ it.name = s.subtitleFilename ∧
        sizeExcluded it = false) := by
  refine ⟨?_, by decide, by decide, by decide, ?_⟩
  · intro it
    unfold sizeExcluded
    cases hsz : it.size with
    | none => simp [hsz]
    | some n => simp [hsz]
  · intro cfg video anilistId episodeNumber data s hs
    rw [mem_filterSubtitles] at hs
    obtain ⟨item, hmem, _, hsz, _, hmk⟩ := hs
    exact ⟨item, hmem, by rw [hmk]; rfl, hsz⟩

/-- Fixture for the C5 witness: one healthy-sized item. -/
def c5data : List Item := [⟨"a.srt", "u", some 600⟩]

/-- Fixture video for the filter-stage witnesses. -/
def cwVideo : Video := .movie ⟨"m", "g", none⟩

/-- Fixture configuration for the filter-stage witnesses. -/
def cwCfg : ProviderCfg := ⟨true, true, false⟩

/-- Witness for claim C5: the surviving candidate of a concrete run traces
back to an item that passed the size check. -/
theorem claim_C5_size_filter_witness :
    ∃ it, it ∈ c5data ∧
      it.name = (mkJimakuSubtitle cwVideo none 0 ⟨"a.srt", "u", some 600⟩).subtitleFilename ∧
      sizeExcluded it = false :=
  claim_C5_size_filter.2.2.2.2 cwCfg cwVideo none 0 c5data
    (mkJimakuSubtitle cwVideo none 0 ⟨"a.srt", "u", some 600⟩) (by decide)

/-! ## Claim C6: AI-origin filter -/

/-- Claim C6: a file is discarded by the AI-origin filter exactly when AI
subtitles are disabled and the lower-cased filename contains the marker
token `whisperai`; with AI subtitles enabled nothing is discarded on this
ground, and the match is case-insensitive. -/
theorem claim_C6_ai_filter :
    (∀ e name, aiExcluded e name = true ↔
      (e = false ∧ strContains (strToLower name) "whisperai" = true)) ∧
    (∀ name, aiExcluded true name = false) ∧
    aiExcluded false "Show.S01E01.WhIsPeRaI.srt" = true ∧
    aiExcluded false "Show.S01E01.srt" = false ∧
    (∀ cfg video anilistId episodeNumber data s,
      cfg.enableAiSubs = false →
      s ∈ filterSubtitles cfg video anilistId episodeNumber data →
      strContains (strToLower s.subtitleFilename) "whisperai" = false) ∧
    (∀ cfg video anilistId episodeNumber data it,
      cfg.enableAiSubs = true → it ∈ data →
      sizeExcluded it = false →
      extExcluded (extensionBlacklistWarn cfg.enableArchives data).fst
        it.name = false →
      ∃ s, s ∈ filterSubtitles cfg video anilistId episodeNumber data ∧
        s.subtitleFilename = it.name) := by
  refine ⟨?_, ?_, by decide, by decide, ?_, ?_⟩
  · intro e name
    cases e <;> simp [aiExcluded]
  · intro name
    simp [aiExcluded]
  · intro cfg video anilistId episodeNumber data s hai hs
    rw [mem_filterSubtitles] at hs
    obtain ⟨item, _, hex, _, _, hmk⟩ := hs
    have hname : s.subtitleFilename = item.name := by
      rw [hmk]; rfl
    rw [hai] at hex
    simp only [aiExcluded, Bool.not_false, Bool.true_and] at hex
    rw [hname]
    exact hex
  · intro cfg video anilistId episodeNumber data it hai hmem hsz hex
    refine ⟨mkJimakuSubtitle video anilistId
      (if isEpisodeVideo video then episodeNumber else 0) it, ?_, rfl⟩
    rw [mem_filterSubtitles]
    exact ⟨it, hmem, by simp [aiExcluded, hai], hsz, hex, rfl⟩

/-- Fixture for the C6 witness: an AI-marked filename. -/
def c6data : List Item := [⟨"Show.WhisperAI.srt", "u", none⟩]

/-- Witness for claim C6: with AI subtitles enabled, a concrete AI-marked
file that passes the other checks survives the filter. -/
theorem claim_C6_ai_filter_witness :
    ∃ s, s ∈ filterSubtitles cwCfg cwVideo none 0 c6data ∧
      s.subtitleFilename = "Show.WhisperAI.srt" :=
  claim_C6_ai_filter.2.2.2.2.2 cwCfg cwVideo none 0 c6data
    ⟨"Show.WhisperAI.srt", "u", none⟩ rfl (by decide) (by decide) (by decide)

/-! ## Claim C3: absence never raises, empty sequence on total miss -/

/-- Claim C3: `list_subtitles` returns the empty sequence exactly when
`_query` resolved to `None` or to an empty candidate list; in particular a
search miss at the entry-resolution layer and an all-filtered candidate
set both yield the empty sequence.  Absence is a value (`none` / `[]`) at
every layer of the model, never an exception. -/
theorem claim_C3_absence_empty (cfg : ProviderCfg) (remote : Remote)
    (video : Video) :
    (listSubtitles cfg remote video = [] ↔
      (query cfg remote video = none ∨ query cfg remote video = some [])) ∧
    (pyNotData (remote.search
        (assembleJimakuSearchUrl video (mediaNameOf video))) = true →
      listSubtitles cfg remote video = []) ∧
    (query cfg remote video = some [] → listSubtitles cfg remote video = []) := by
  have hmain : listSubtitles cfg remote video = [] ↔
      (query cfg remote video = none ∨ query cfg remote video = some []) := by
    cases hq : query cfg remote video with
    | none => simp [listSubtitles, hq, pyNotData]
    | some l =>
        cases l with
        | nil => simp [listSubtitles, hq, pyNotData]
        | cons x xs => simp [listSubtitles, hq, pyNotData]
  refine ⟨hmain, ?_, fun h => hmain.mpr (Or.inr h)⟩
  intro h
  apply hmain.mpr
  left
  cases hs : remote.search (assembleJimakuSearchUrl video (mediaNameOf video)) with
  | none => simp [query, hs]
  | some l =>
      rw [hs] at h
      have hl : l = [] := List.isEmpty_iff.mp (by simpa [pyNotData] using h)
      subst hl
      simp [query, hs]

/-- Fixture for the C3 witness: a remote on which every search misses. -/
def c3remote : Remote := ⟨fun _ => none, fun _ => none⟩

/-- Witness for claim C3: a concrete total miss produces the empty
sequence. -/
theorem claim_C3_absence_empty_witness :
    listSubtitles cwCfg c3remote cwVideo = [] :=
  (claim_C3_absence_empty cwCfg c3remote cwVideo).2.1 (by decide)

/-! ## Claim C1: rate-limit handling of `_get_jimaku_response` (code bug) -/

/-- Fixture: a 429 response advertising a 10-second reset delay. -/
def resp429 : HttpResponse (List Nat) := ⟨429, some 10, []⟩

/-- Fixture: a successful response with a non-empty, non-error body. -/
def resp200 : HttpResponse (List Nat) := ⟨200, none, [1, 2]⟩

/-- Python `len` for the fixture body type. -/
def pyLenList (l : List Nat) : Nat := l.length

/-- Membership test `'error' in data` for the fixture body type (a JSON
array of numbers never contains the string, so constantly false). -/
def pyHasErrorNever (_ : List Nat) : Bool := false

/-- Claim C1 is refuted by the code: because the unconditional
`response.raise_for_status()` follows the 429 branch, a single 429 makes
the fetcher sleep the clamped delay (5s, from the header value 10) and
then raise `requests.HTTPError` — it never retries, so three consecutive
429s do not raise `APIThrottled`, and a 429 followed by a good 200 does
not return the 200 body.  The final conjunct shows no call ever issues a
second request, whatever the backoff limit. -/
theorem claim_C1_rate_limit_divergence :
    getJimakuResponse pyLenList pyHasErrorNever [resp429, resp429, resp429] =
      ⟨.httpError 429, [5], 1⟩ ∧
    getJimakuResponse pyLenList pyHasErrorNever [resp429, resp200] =
      ⟨.httpError 429, [5], 1⟩ ∧
    (∀ (α : Type) (pyLen : α → Nat) (pyHasError : α → Bool) (fuel : Nat)
      (script : List (HttpResponse α)),
      (getJimakuResponseLoop pyLen pyHasError fuel script).requests ≤ 1) := by
  refine ⟨by decide, by decide, ?_⟩
  intro α pyLen pyHasError fuel script
  cases fuel with
  | zero => simp [getJimakuResponseLoop]
  | succ fuel =>
      cases script with
      | nil => simp [getJimakuResponseLoop]
      | cons r rest =>
          simp only [getJimakuResponseLoop]
          split <;> try simp
          split <;> try simp
          split <;> try simp
          split <;> try simp
          split <;> simp

/-! ## Claim C2: offset-based episode-number retry (code bug) -/

/-- Fixture entry for the C2 scenario. -/
def c2entry : Entry := ⟨1, some 1234, "show", "Show", false⟩

/-- Fixture subtitle file reachable only under the offset-adjusted episode
number. -/
def c2item : Item := ⟨"ep.srt", "u", none⟩

/-- Fixture episode: season 2 episode 5, whose offset-adjusted (absolute)
episode number is 17. -/
def c2video : Video := .episode ⟨"show", 2, 5, 17, "g", some 1234⟩

/-- Fixture remote: the file list is empty for episode 5 but non-empty for
the offset-adjusted episode 17. -/
def c2remote : Remote :=
  ⟨fun u => if u == "entries/search?anilist_id=1234" then some [c2entry] else none,
   fun u => if u == "entries/1/files?episode=17" then some [c2item] else none⟩

/-- Fixture configuration with the episode-number override enabled. -/
def c2cfg : ProviderCfg := ⟨true, true, true⟩

/-- Claim C2 is refuted by the code: even with the override enabled and
subtitles available under the offset-adjusted episode number, `_query`
resolves to `None` on the first empty file list — the guard
`retry_count < 1` is evaluated after `retry_count += 1`, so the retry
branch is unreachable.  The final conjunct shows this for every remote:
an empty first episode-scoped file response ends the loop with `None`. -/
theorem claim_C2_offset_retry_divergence :
    query c2cfg c2remote c2video = none ∧
    c2remote.files "entries/1/files?episode=17" = some [c2item] ∧
    (∀ (remote : Remote) (override : Bool)
      (entryId anidbNo episodeNumber retryCount fuel : Nat)
      (lastData : List Item),
      pyNotData (remote.files ("entries/" ++ toString entryId ++
        "/files?episode=" ++ toString episodeNumber)) = true →
      filesLoopGo remote true override entryId anidbNo (fuel + 1) retryCount
        episodeNumber lastData = none) := by
  refine ⟨by decide, by decide, ?_⟩
  intro remote override entryId anidbNo episodeNumber retryCount fuel lastData h
  have hrc : decide (retryCount + 1 < 1) = false := by simp
  simp [filesLoopGo, h, hrc]

/-- Witness for claim C2's universal conjunct: the concrete scenario's
loop call returns `None` despite the override. -/
theorem claim_C2_offset_retry_divergence_witness :
    filesLoopGo c2remote true true 1 17 2 0 5 [] = none :=
  claim_C2_offset_retry_divergence.2.2 c2remote true 1 17 5 0 1 [] (by decide)

/-! ## Claim C7: download dispatch and soft corruption -/

/-- Claim C7: on a 2xx download response, a recognized archive container
yields content extracted from the archive for the target episode; an
unrecognized body whose URL claims `.zip`/`.rar` yields the soft-failure
outcome with content never assigned (and no exception); any other body is
attached raw. -/
theorem claim_C7_download_dispatch (isRarfile isZipfile : List Nat → Bool)
    (getSubtitleFromArchive : ArchiveHandle → Nat → Option (List Nat))
    (videoEpisode : Nat) (subtitleUrl : String)
    (response : HttpResponse (List Nat)) (hok : response.status < 400) :
    (∀ a, isArchive isRarfile isZipfile response.body = some a →
      downloadSubtitle isRarfile isZipfile getSubtitleFromArchive videoEpisode
        subtitleUrl response = .contentSet (getSubtitleFromArchive a videoEpisode)) ∧
    (isArchive isRarfile isZipfile response.body = none →
      (strEndsWith subtitleUrl ".zip" || strEndsWith subtitleUrl ".rar") = true →
      downloadSubtitle isRarfile isZipfile getSubtitleFromArchive videoEpisode
        subtitleUrl response = .contentUnset) ∧
    (isArchive isRarfile isZipfile response.body = none →
      (strEndsWith subtitleUrl ".zip" || strEndsWith subtitleUrl ".rar") = false →
      downloadSubtitle isRarfile isZipfile getSubtitleFromArchive videoEpisode
        subtitleUrl response = .contentSet (some response.body)) := by
  have hnot : ¬(400 ≤ response.status) := by omega
  refine ⟨?_, ?_, ?_⟩
  · intro a ha
    simp [downloadSubtitle, hnot, ha]
  · intro ha hurl
    simp [downloadSubtitle, hnot, ha, hurl]
  · intro ha hurl
    simp [downloadSubtitle, hnot, ha, hurl]

/-- Fixture archive sniffer for the C7 witness: recognizes the byte list
`[82]` as a rar signature. -/
def c7isRar (b : List Nat) : Bool := b == [82]

/-- Fixture zip sniffer for the C7 witness: recognizes `[80]`. -/
def c7isZip (b : List Nat) : Bool := b == [80]

/-- Fixture extraction helper for the C7 witness. -/
def c7extract (_ : ArchiveHandle) (_ : Nat) : Option (List Nat) := some [7]

/-- Witness for claim C7: a `.rar`-named URL whose 200 body is not an
archive yields the soft-failure outcome with content unset. -/
theorem claim_C7_download_dispatch_witness :
    downloadSubtitle c7isRar c7isZip c7extract 5 "file.rar" ⟨200, none, [9]⟩ =
      .contentUnset :=
  (claim_C7_download_dispatch c7isRar c7isZip c7extract 5 "file.rar"
    ⟨200, none, [9]⟩ (by decide)).2.1 (by decide) (by decide)

/-! ## Claim C8: synthesized candidate id -/

lemma digitChar_lt10_ne_underscore : ∀ m, m < 10 → Nat.digitChar m ≠ '_' := by
  decide

lemma toDigitsCore_no_underscore :
    ∀ (fuel n : Nat) (ds : List Char), '_' ∉ ds →
      '_' ∉ Nat.toDigitsCore 10 fuel n ds := by
  intro fuel
  induction fuel with
  | zero => intro n ds h; simpa [Nat.toDigitsCore] using h
  | succ fuel ih =>
      intro n ds h
      have hd : Nat.digitChar (n % 10) ≠ '_' :=
        digitChar_lt10_ne_underscore _ (Nat.mod_lt _ (by norm_num))
      by_cases h0 : n / 10 = 0
      · simp only [Nat.toDigitsCore, h0, if_true]
        intro hmem
        rcases List.mem_cons.mp hmem with hc | hc
        · exact hd hc.symm
        · exact h hc
      · simp only [Nat.toDigitsCore, h0, if_false]
        apply ih
        intro hmem
        rcases List.mem_cons.mp hmem with hc | hc
        · exact hd hc.symm
        · exact h hc

lemma natToString_no_underscore (n : Nat) : '_' ∉ (toString n).data := by
  show '_' ∉ (Nat.repr n).data
  have hrepr : Nat.repr n = (Nat.toDigits 10 n).asString := rfl
  rw [hrepr]
  show '_' ∉ Nat.toDigits 10 n
  exact toDigitsCore_no_underscore (n + 1) n [] (by simp)

lemma pyStrOptNat_no_underscore (a : Option Nat) :
    '_' ∉ (pyStrOptNat a).data := by
  cases a with
  | none => decide
  | some n => exact natToString_no_underscore n

lemma append_underscore_inj :
    ∀ (x₁ x₂ y₁ y₂ : List Char), '_' ∉ x₁ → '_' ∉ x₂ →
      x₁ ++ '_' :: y₁ = x₂ ++ '_' :: y₂ → x₁ = x₂ ∧ y₁ = y₂ := by
  intro x₁
  induction x₁ with
  | nil =>
      intro x₂ y₁ y₂ h₁ h₂ h
      cases x₂ with
      | nil => simpa using h
      | cons b bs =>
          exfalso
          simp only [List.nil_append, List.cons_append, List.cons.injEq] at h
          exact h₂ (by rw [← h.1]; exact List.mem_cons_self _ _)
  | cons a as ih =>
      intro x₂ y₁ y₂ h₁ h₂ h
      cases x₂ with
      | nil =>
          exfalso
          simp only [List.nil_append, List.cons_append, List.cons.injEq] at h
          exact h₁ (by rw [h.1]; exact List.mem_cons_self _ _)
      | cons b bs =>
          simp only [List.cons_append, List.cons.injEq] at h
          have h₁' : '_' ∉ as := fun hm => h₁ (List.mem_cons_of_mem a hm)
          have h₂' : '_' ∉ bs := fun hm => h₂ (List.mem_cons_of_mem b hm)
          obtain ⟨hx, hy⟩ := ih bs y₁ y₂ h₁' h₂' h.2
          exact ⟨by rw [h.1, hx], hy⟩

lemma jimakuSubtitleId_data (a : Option Nat) (n : Nat) (g : String) :
    (jimakuSubtitleId a n g).data =
      (pyStrOptNat a).data ++ '_' :: ((toString n).data ++ '_' :: g.data) := by
  have hu : ("_" : String).data = ['_'] := rfl
  simp [jimakuSubtitleId, String.data_append, hu]

/-- Fixture configuration for the C8 counterexample. -/
def c8cfg : ProviderCfg := ⟨true, true, false⟩

/-- Fixture entry without an `anilist_id`, entry id 1, name `"A"`. -/
def c8entryA : Entry := ⟨1, none, "A", "A", false⟩

/-- Fixture entry without an `anilist_id`, entry id 2, name `"B"`. -/
def c8entryB : Entry := ⟨2, none, "B", "B", false⟩

/-- Fixture subtitle file shared by both C8 runs. -/
def c8item : Item := ⟨"ep5.srt", "http://x/ep5.srt", none⟩

/-- Fixture episode for series `"a"`, episode 5, release group `"g"`. -/
def c8videoA : Video := .episode ⟨"a", 1, 5, 5, "g", none⟩

/-- Fixture episode for series `"b"`, episode 5, release group `"g"`. -/
def c8videoB : Video := .episode ⟨"b", 1, 5, 5, "g", none⟩

/-- Fixture remote resolving series `"a"` to entry 1. -/
def c8remoteA : Remote :=
  ⟨fun u => if u == "entries/search?query=a" then some [c8entryA] else none,
   fun u => if u == "entries/1/files?episode=5" then some [c8item] else none⟩

/-- Fixture remote resolving series `"b"` to entry 2. -/
def c8remoteB : Remote :=
  ⟨fun u => if u == "entries/search?query=b" then some [c8entryB] else none,
   fun u => if u == "entries/2/files?episode=5" then some [c8item] else none⟩

/-- Counterexample to claim C8 as stated: two episode identities with
distinct series names, resolving to catalog entries with distinct entry
ids and names (both lacking an `anilist_id`), produce the identical
synthesized id `"None_5_g"` — the code renders `str(None)` and never falls
back to the entry id or name. -/
theorem claim_C8_counterexample :
    (listSubtitles c8cfg c8remoteA c8videoA).map (fun s => s.subtitleId) =
      ["None_5_g"] ∧
    (listSubtitles c8cfg c8remoteB c8videoB).map (fun s => s.subtitleId) =
      ["None_5_g"] ∧
    c8entryA.anilistId = none ∧ c8entryB.anilistId = none ∧
    c8entryA.id ≠ c8entryB.id ∧ c8entryA.name ≠ c8entryB.name := by
  decide

/-- Claim C8 as amended: the synthesized id is a deterministic function of
the rendered triple (the entry's `anilist_id` rendered as its decimal
string, or the literal `"None"` when absent; the episode number, or 0 for
movies, rendered in decimal; the video's release group), and two ids are
equal exactly when those rendered components agree.  In particular ids of
identical tuples coincide, ids with distinct present `anilist_id` values
are distinct, and all entries lacking an `anilist_id` share the `"None"`
component, where distinctness fails (see the counterexample). -/
theorem claim_C8_id_determinism (a₁ a₂ : Option Nat) (n₁ n₂ : Nat)
    (g₁ g₂ : String) :
    jimakuSubtitleId a₁ n₁ g₁ = jimakuSubtitleId a₂ n₂ g₂ ↔
      (pyStrOptNat a₁ = pyStrOptNat a₂ ∧ toString n₁ = toString n₂ ∧
        g₁ = g₂) := by
  constructor
  · intro h
    have hd := congrArg String.data h
    rw [jimakuSubtitleId_data, jimakuSubtitleId_data] at hd
    obtain ⟨h1, hrest⟩ := append_underscore_inj _ _ _ _
      (pyStrOptNat_no_underscore a₁) (pyStrOptNat_no_underscore a₂) hd
    obtain ⟨h2, h3⟩ := append_underscore_inj _ _ _ _
      (natToString_no_underscore n₁) (natToString_no_underscore n₂) hrest
    exact ⟨String.ext h1, String.ext h2, String.ext h3⟩
  · rintro ⟨h1, h2, h3⟩
    simp [jimakuSubtitleId, h1, h2, h3]

/-! ## Claim C9: memoization of the fetcher -/

/-- Claim C9: once a fetch of a path has produced a data or `None`
outcome, a repeated fetch of the same path on the same instance returns
the same outcome with zero GET requests issued (and no sleeps), leaving
the memoization cache unchanged — whatever the remote would answer the
second time. -/
theorem claim_C9_memoized_fetch {α : Type} (pyLen : α → Nat)
    (pyHasError : α → Bool) (cache : List (String × Option α)) (path : String)
    (script : List (HttpResponse α))
    (h : (∃ d, (cachedGetJimakuResponse pyLen pyHasError cache path
        script).1.result = .ok d) ∨
      (cachedGetJimakuResponse pyLen pyHasError cache path
        script).1.result = .noResult)
    (script2 : List (HttpResponse α)) :
    cachedGetJimakuResponse pyLen pyHasError
        (cachedGetJimakuResponse pyLen pyHasError cache path script).2 path
        script2 =
      (⟨(cachedGetJimakuResponse pyLen pyHasError cache path script).1.result,
        [], 0⟩,
        (cachedGetJimakuResponse pyLen pyHasError cache path script).2) := by
  cases hlc : lookupCache cache path with
  | some v =>
      cases v with
      | some d => simp [cachedGetJimakuResponse, hlc]
      | none => simp [cachedGetJimakuResponse, hlc]
  | none =>
      cases ht : (getJimakuResponse pyLen pyHasError script).result with
      | ok d =>
          simp only [cachedGetJimakuResponse, hlc, ht]
          simp [lookupCache]
      | noResult =>
          simp only [cachedGetJimakuResponse, hlc, ht]
          simp [lookupCache]
      | authError =>
          exfalso
          simp only [cachedGetJimakuResponse, hlc, ht] at h
          rcases h with ⟨d, hd⟩ | hd <;> simp_all
      | httpError code =>
          exfalso
          simp only [cachedGetJimakuResponse, hlc, ht] at h
          rcases h with ⟨d, hd⟩ | hd <;> simp_all
      | throttled =>
          exfalso
          simp only [cachedGetJimakuResponse, hlc, ht] at h
          rcases h with ⟨d, hd⟩ | hd <;> simp_all
      | noResponse =>
          exfalso
          simp only [cachedGetJimakuResponse, hlc, ht] at h
          rcases h with ⟨d, hd⟩ | hd <;> simp_all

/-- Witness for claim C9: after a concrete successful fetch of path
`"p"`, the repeated fetch returns the same outcome with zero requests even
though the second script is empty. -/
theorem claim_C9_memoized_fetch_witness :
    cachedGetJimakuResponse pyLenList pyHasErrorNever
        (cachedGetJimakuResponse pyLenList pyHasErrorNever [] "p"
          [resp200]).2 "p" [] =
      (⟨(cachedGetJimakuResponse pyLenList pyHasErrorNever [] "p"
          [resp200]).1.result, [], 0⟩,
        (cachedGetJimakuResponse pyLenList pyHasErrorNever [] "p"
          [resp200]).2) :=
  claim_C9_memoized_fetch pyLenList pyHasErrorNever [] "p" [resp200]
    (Or.inl ⟨[1, 2], by decide⟩) []

/-! ## Claim C10: the always-truthy guessit guard -/

/-- Claim C10: for every key iterated from the guessit result, the guard
`g[0] == "release_group" or "source"` is truthy (its right operand is the
non-empty literal `"source"`), so the release-group match is added exactly
when the video's release group equals the second character of some guess
key — the guess's release-group or source values are never consulted. -/
theorem claim_C10_guess_guard :
    (∀ g, guessitGuard g = true) ∧
    (∀ (guessKeys : List String) (vrg : String),
      releaseGroupMatched guessKeys vrg =
        guessKeys.any (fun g => vrg == charAtStr g 1)) := by
  have hsrc : pyStrTruthy "source" = true := rfl
  constructor
  · intro g
    simp [guessitGuard, hsrc]
  · intro guessKeys vrg
    simp [releaseGroupMatched, guessitGuard, hsrc]

end Jimaku
